import Mathlib

/-!
Shallow embedding of the `yabc` Bluesky CLI (Go) for checking its
natural-language specification.

Sources embedded:
  * `internal/bluesky/post.go`: `CreatePost`, `getCurrentTime`, `uploadImage`,
    `getMimeType`, the response structures;
  * `cmd/posts/create.go`: the `posts create` command (`newCreatePostCommand`,
    its `Run` closure), embedded as `runCreate`;
  * `cmd/root.go`: `Execute`, embedded as `Execute` over a parse outcome.

Effects are made explicit: the file system is a map from path to optional
byte content (a missing file and an unreadable file both present as `none`),
the network is an oracle from the request the code builds to an outcome
(transport error, body-read error, or a status code together with the decode
results of the body), and every user-visible print or log line is recorded
in an output trace.  Go byte strings are `List Nat`; the paths and messages
are `String`.  A Go runtime panic is modelled as an explicit outcome
(`Option`-valued functions / the `Termination.crashed` terminator), because
`getCurrentTime` slices a string that can be shorter than the slice bound.
-/

namespace Yabc

/-- Bearer token and account identifier returned by session creation
(`bluesky.DIDResponse`); only the fields the embedded code reads. -/
structure DIDResponse where
  did : String
  accessJwt : String
  deriving DecidableEq, Repr

/-- The `$link` wrapper (`RefLink` in post.go). -/
structure RefLink where
  link : String
  deriving DecidableEq, Repr

/-- The anonymous `Blob` struct inside `UploadBlobResponse` in post.go. -/
structure BlobStruct where
  typeTag : String
  ref : RefLink
  mimeType : String
  size : Int
  deriving DecidableEq, Repr

/-- Response structure of the blob upload (`UploadBlobResponse` in post.go). -/
structure UploadBlobResponse where
  blob : BlobStruct
  deriving DecidableEq, Repr

/-- Record part of `PostCreateResponse` in post.go. -/
structure PostRecordEcho where
  typeTag : String
  text : String
  createdAt : String
  deriving DecidableEq, Repr

/-- Response structure of record creation (`PostCreateResponse` in post.go). -/
structure PostCreateResponse where
  uri : String
  cid : String
  record : PostRecordEcho
  deriving DecidableEq, Repr

/-- Fixed API origin (`API_URL` in the sources). -/
def API_URL : String := "https://bsky.social/xrpc"

/-! ### Go string helpers used by the sources -/

/-- Lower-case one character exactly as Go's `unicode.ToLower` does on the
ASCII range (the only range that can produce a hit in the extension table). -/
def goToLowerChar (c : Char) : Char :=
  if 'A' ≤ c ∧ c ≤ 'Z' then Char.ofNat (c.toNat + 32) else c

/-- Go's `strings.ToLower`, restricted to the per-character ASCII mapping. -/
def goToLower (s : String) : String :=
  String.mk (s.data.map goToLowerChar)

/-- Helper for `filepathExt`: walk the reversed character list, rebuilding the
suffix, and stop at the first dot (returning the suffix from the dot) or the
first path separator (returning the empty extension). -/
def filepathExtAux : List Char → List Char → String
  | [], _ => ""
  | c :: rest, acc =>
    if c = '/' then ""
    else if c = '.' then String.mk (c :: acc)
    else filepathExtAux rest (c :: acc)

/-- Go's `filepath.Ext`: the suffix beginning at the final dot in the final
slash-separated element of the path, empty if there is no such dot. -/
def filepathExt (path : String) : String :=
  filepathExtAux path.data.reverse []

/-- Function `getMimeType` from post.go: a fixed table over the lower-cased file
extension, returning `""` for an unknown extension. -/
def getMimeType (filename : String) : String :=
  let ext := goToLower (filepathExt filename)
  if ext = ".jpg" ∨ ext = ".jpeg" then "image/jpeg"
  else if ext = ".png" then "image/png"
  else if ext = ".gif" then "image/gif"
  else if ext = ".webp" then "image/webp"
  else ""

/-- The MIME type `uploadImage` actually puts in the Content-Type header
(post.go lines 184-189): the table result, or `image/jpeg` when the table
gave the empty string. -/
def resolveMimeType (imagePath : String) : String :=
  let mimeType := getMimeType imagePath
  if mimeType = "" then "image/jpeg" else mimeType

/-! ### Time formatting (`getCurrentTime` in post.go) -/

/-- A UTC wall-clock instant as Go's `time.Time` presents it to `Format`:
calendar fields plus the nanosecond count within the second. -/
structure GoTime where
  year : Nat
  month : Nat
  day : Nat
  hour : Nat
  minute : Nat
  second : Nat
  nanos : Nat
  deriving DecidableEq, Repr

/-- Zero-pad the decimal representation of `n` to `width` digits. -/
def padNum (width : Nat) (n : Nat) : String :=
  let s := toString n
  if s.length < width then String.mk (List.replicate (width - s.length) '0') ++ s else s

/-- Drop trailing `'0'` characters (Go's `.999999999` fraction trimming). -/
def trimTrailingZeros (s : String) : String :=
  String.mk (s.data.reverse.dropWhile (fun c => c = '0')).reverse

/-- Go's `Format(time.RFC3339Nano)` on a UTC time: `YYYY-MM-DDThh:mm:ss`,
then a fractional-second part with trailing zeros trimmed and omitted
entirely when the nanosecond count is zero, then `Z`. -/
def formatRFC3339NanoUTC (t : GoTime) : String :=
  padNum 4 t.year ++ "-" ++ padNum 2 t.month ++ "-" ++ padNum 2 t.day ++ "T" ++
  padNum 2 t.hour ++ ":" ++ padNum 2 t.minute ++ ":" ++ padNum 2 t.second ++
  (if t.nanos = 0 then "" else "." ++ trimTrailingZeros (padNum 9 t.nanos)) ++ "Z"

/-- Function `getCurrentTime` from post.go:
`time.Now().UTC().Format(time.RFC3339Nano)[:23] + "Z"`.
The Go slice `s[:23]` panics when the formatted string is shorter than 23
bytes; the panic is modelled as `none`. -/
def getCurrentTime (t : GoTime) : Option String :=
  let s := formatRFC3339NanoUTC t
  if s.length < 23 then none else some (s.take 23 ++ "Z")

/-! ### Content composition (`Run` in create.go) -/

/-- The content-building loop of the create command:
`content := text; for _, tag := range hashtags { content += " #" + tag }`. -/
def composeContent (text : String) (hashtags : List String) : String :=
  hashtags.foldl (fun content tag => content ++ " #" ++ tag) text

/-! ### The effect model: requests, network oracles, output trace -/

/-- The HTTP request `uploadImage` builds: POST to the uploadBlob endpoint
with the raw image bytes as body and the resolved Content-Type. -/
structure UploadRequest where
  url : String
  contentType : String
  authorization : String
  body : List Nat
  deriving DecidableEq, Repr

/-- The image embed `CreatePost` places in the record when an image is
attached (alt text, blob reference, MIME type, declared size, and the
aspect-ratio entry that is added only when both dimensions are positive). -/
structure ImageEmbed where
  alt : String
  refLink : String
  mimeType : String
  size : Int
  aspect : Option (Nat × Nat)
  deriving DecidableEq, Repr

/-- The post record `CreatePost` builds (`record` map in post.go). -/
structure PostRecord where
  typeTag : String
  text : String
  createdAt : String
  embed : Option ImageEmbed
  deriving DecidableEq, Repr

/-- The HTTP request `CreatePost` builds: POST to the createRecord endpoint
with the JSON body `{collection, repo, record}` and bearer authorization. -/
structure CreateRecordRequest where
  url : String
  authorization : String
  contentType : String
  collection : String
  repo : String
  record : PostRecord
  deriving DecidableEq, Repr

/-- A network interaction performed by a run, in order. -/
inductive NetCall where
  /-- The single authenticated session request made by `bluesky.GetToken`. -/
  | auth
  /-- The blob upload request sent by `uploadImage`. -/
  | uploadBlob (req : UploadRequest)
  /-- The record creation request sent by `CreatePost`. -/
  | createRecord (req : CreateRecordRequest)
  deriving DecidableEq, Repr

/-- Outcome of the blob-upload round-trip, as the code observes it:
a transport failure from `client.Do`, a failure of `io.ReadAll` on the body,
or a status code together with the raw body text, the optional `message`
string the error-map decode would yield, and the optional result of
unmarshalling the body into `UploadBlobResponse`. -/
inductive UploadNetOutcome where
  | transportError (msg : String)
  | readBodyError (msg : String)
  | response (status : Nat) (bodyText : String)
      (errMessage : Option String) (decodedBlob : Option UploadBlobResponse)
  deriving Repr

/-- Outcome of the record-creation round-trip: a transport failure, or a
status code together with the optional decode of the body as a generic error
map (rendered as the string that would be logged) and the optional decode of
the body into `PostCreateResponse`. -/
inductive CreateNetOutcome where
  | transportError (msg : String)
  | response (status : Nat) (errDecode : Option String)
      (postDecode : Option PostCreateResponse)
  deriving Repr

/-- One user-visible print or log line of the command layer.  The payload of
a structured log line is carried in the constructor argument. -/
inductive Output where
  /-- Line `fmt.Println("Uploading image:", imagePath)` in `CreatePost`. -/
  | uploadingImage (path : String)
  /-- The dimension warning (`slog.Warn` plus the printed warning line). -/
  | warnDimensions
  /-- Log `slog.Error("API error response", ...)` on a non-success createRecord status. -/
  | apiErrorResponse (body : String)
  /-- Log `slog.Info("Post created", "uri", ..., "cid", ...)` after a decoded 200. -/
  | postCreatedLog (uri cid : String)
  /-- Log `slog.Error("Failed to get user input", ...)` when the form fails. -/
  | errUserInput (err : String)
  /-- Log `slog.Error("Failed to get authentication token", ...)`. -/
  | errAuthLog (err : String)
  /-- Line `fmt.Println("Error: Failed to authenticate with Bluesky")`. -/
  | errAuthMsg
  /-- Log `slog.Error("Failed to create post", ...)`. -/
  | errCreateLog (err : String)
  /-- Line `fmt.Println("Error: Failed to create post")`. -/
  | errCreateMsg
  /-- Line `fmt.Println("Post created successfully!")`. -/
  | success
  /-- The missing-input refusal
  `fmt.Println("Error: You must provide either text content or an image to post")`
  that the specification requires when neither text nor image is supplied.
  The current command code contains no statement that emits it. -/
  | missingInputMsg
  deriving DecidableEq, Repr

/-- How the process run ends. -/
inductive Termination where
  /-- The `Run` closure returns; the process exits with code 0. -/
  | normal
  /-- An explicit `os.Exit(code)`. -/
  | exited (code : Nat)
  /-- A Go runtime panic (the process terminates with a non-zero code). -/
  | crashed
  deriving DecidableEq, Repr

/-- Trace of one CLI run: the output lines, the network calls in order, and
the way the process terminated. -/
structure RunResult where
  outputs : List Output
  calls : List NetCall
  term : Termination
  deriving DecidableEq, Repr

/-! ### `uploadImage` (post.go lines 164-243) -/

/-- The upload request `uploadImage` constructs for a file it accepted:
the uploadBlob endpoint, the resolved Content-Type, the bearer header, and
the raw file bytes as body. -/
def uploadRequestFor (token : DIDResponse) (imagePath : String) (imgData : List Nat) :
    UploadRequest :=
  { url := API_URL ++ "/com.atproto.repo.uploadBlob"
    contentType := resolveMimeType imagePath
    authorization := "Bearer " ++ token.accessJwt
    body := imgData }

/-- Function `uploadImage` from post.go.  `fs` maps a path to its byte
content (`none` when `os.Stat`/`os.ReadFile` fail), `net` is the network
oracle.  Returns the upload requests actually sent (in order) together with
the function's result. -/
def uploadImage (token : DIDResponse) (imagePath : String)
    (fs : String → Option (List Nat)) (net : UploadRequest → UploadNetOutcome) :
    List UploadRequest × Except String UploadBlobResponse :=
  match fs imagePath with
  | none => ([], .error ("image file does not exist: " ++ imagePath))
  | some imgData =>
    if imgData.length > 1000000 then
      ([], .error ("image file size too large: " ++ toString imgData.length ++
                   " bytes (1,000,000 bytes maximum)"))
    else
      let req := uploadRequestFor token imagePath imgData
      match net req with
      | .transportError msg => ([req], .error ("failed to send request: " ++ msg))
      | .readBodyError msg => ([req], .error ("failed to read response body: " ++ msg))
      | .response status bodyText errMessage decodedBlob =>
        if status ≠ 200 then
          match errMessage with
          | some msg => ([req], .error ("API error: " ++ msg))
          | none => ([req], .error ("unexpected status code: " ++ toString status ++
                                    " - " ++ bodyText))
        else
          match decodedBlob with
          | none => ([req], .error ("failed to decode response - body: " ++ bodyText))
          | some blobResp =>
            if blobResp.blob.ref.link = "" then
              ([req], .error ("invalid response: missing blob reference link - body: " ++
                              bodyText))
            else
              ([req], .ok blobResp)

/-! ### `CreatePost` (post.go lines 61-156) -/

/-- The createRecord request `CreatePost` constructs. -/
def mkCreateRecordRequest (token : DIDResponse) (content createdAt : String)
    (embed : Option ImageEmbed) : CreateRecordRequest :=
  { url := API_URL ++ "/com.atproto.repo.createRecord"
    authorization := "Bearer " ++ token.accessJwt
    contentType := "application/json"
    collection := "app.bsky.feed.post"
    repo := token.did
    record := { typeTag := "app.bsky.feed.post", text := content,
                createdAt := createdAt, embed := embed } }

/-- Tail of `CreatePost` from the createRecord round-trip on (post.go lines
124-155): send the request; a non-success status logs the decoded error body
when it decodes and returns the status error; a 200 logs the decoded post
details when they decode and returns success either way. -/
def sendCreateRecord (req : CreateRecordRequest)
    (crNet : CreateRecordRequest → CreateNetOutcome)
    (calls0 : List NetCall) (outs0 : List Output) :
    List NetCall × List Output × Except String Unit :=
  match crNet req with
  | .transportError msg =>
    (calls0 ++ [.createRecord req], outs0, .error ("failed to send request: " ++ msg))
  | .response status errDecode postDecode =>
    if status ≠ 200 then
      (calls0 ++ [.createRecord req],
       outs0 ++ (match errDecode with
                 | some body => [Output.apiErrorResponse body]
                 | none => []),
       .error ("unexpected status code: " ++ toString status))
    else
      (calls0 ++ [.createRecord req],
       outs0 ++ (match postDecode with
                 | some post => [Output.postCreatedLog post.uri post.cid]
                 | none => []),
       .ok ())

/-- Function `CreatePost` from post.go.  The record (with its `createdAt`
from `getCurrentTime`) is built first; when an image path is given the blob
is uploaded (an upload failure aborts), the dimensions are probed
best-effort via the `dims` oracle, and the embed is attached; finally the
createRecord request is sent.  `none` models the Go panic that propagates
out of `getCurrentTime` when the sliced string is too short; it is the first
statement executed, so nothing has been printed or sent at that point. -/
def CreatePost (now : GoTime) (token : DIDResponse) (content imagePath : String)
    (fs : String → Option (List Nat)) (upNet : UploadRequest → UploadNetOutcome)
    (dims : String → Option (Nat × Nat))
    (crNet : CreateRecordRequest → CreateNetOutcome) :
    Option (List NetCall × List Output × Except String Unit) :=
  match getCurrentTime now with
  | none => none
  | some createdAt =>
    if imagePath ≠ "" then
      match uploadImage token imagePath fs upNet with
      | (ureqs, .error e) =>
        some (ureqs.map NetCall.uploadBlob, [Output.uploadingImage imagePath],
              .error ("failed to upload image: " ++ e))
      | (ureqs, .ok blobResp) =>
        let warnOuts : List Output :=
          match dims imagePath with
          | none => [Output.warnDimensions]
          | some _ => []
        let aspect : Option (Nat × Nat) :=
          match dims imagePath with
          | none => none
          | some (width, height) =>
            if width > 0 ∧ height > 0 then some (width, height) else none
        let embed : ImageEmbed :=
          { alt := "Attached image", refLink := blobResp.blob.ref.link,
            mimeType := blobResp.blob.mimeType, size := blobResp.blob.size,
            aspect := aspect }
        some (sendCreateRecord (mkCreateRecordRequest token content createdAt (some embed))
              crNet (ureqs.map NetCall.uploadBlob)
              ([Output.uploadingImage imagePath] ++ warnOuts))
    else
      some (sendCreateRecord (mkCreateRecordRequest token content createdAt none)
            crNet [] [])

/-! ### The `posts create` command (create.go) and the root command -/

/-- Modelled from the spec: `bluesky.GetToken` (the Session Client, spec
sections 4.1 and 6) is not among the provided source files; per the spec it
sends a single authenticated request to the identity endpoint and yields
either the access token plus account identifier or an authentication
failure (any non-success status or malformed response).  The request itself
is recorded as `NetCall.auth`; its outcome is the oracle `auth`. -/
def GetToken (auth : Except String DIDResponse) :
    List NetCall × Except String DIDResponse :=
  ([NetCall.auth], auth)

/-- Continuation of the `Run` closure of `newCreatePostCommand` after the
text/hashtags/image inputs are settled: compose the content, get the token
(reporting an authentication failure and returning), call
`bluesky.CreatePost` (reporting a failure and returning), and report
success. -/
def afterInput (text : String) (hashtags : List String) (imageFile : String)
    (auth : Except String DIDResponse) (now : GoTime)
    (fs : String → Option (List Nat)) (upNet : UploadRequest → UploadNetOutcome)
    (dims : String → Option (Nat × Nat))
    (crNet : CreateRecordRequest → CreateNetOutcome) : RunResult :=
  let content := composeContent text hashtags
  match GetToken auth with
  | (authCalls, .error e) =>
    { outputs := [Output.errAuthLog e, Output.errAuthMsg]
      calls := authCalls
      term := .normal }
  | (authCalls, .ok token) =>
    match CreatePost now token content imageFile fs upNet dims crNet with
    | none =>
      { outputs := [], calls := authCalls, term := .crashed }
    | some (cpCalls, cpOuts, .error e) =>
      { outputs := cpOuts ++ [Output.errCreateLog e, Output.errCreateMsg]
        calls := authCalls ++ cpCalls
        term := .normal }
    | some (cpCalls, cpOuts, .ok _) =>
      { outputs := cpOuts ++ [Output.success]
        calls := authCalls ++ cpCalls
        term := .normal }

/-- The `Run` closure of `newCreatePostCommand` (create.go lines 40-100).
When both the text flag and the image flag are empty, the interactive form
is run (oracle `form`, yielding the entered text, the raw hashtag input and
the picked image path, or an input error which causes `os.Exit(1)`); a
non-empty hashtag input is split on commas and the pieces trimmed,
replacing the hashtag flag values.  Then the common continuation runs. -/
def runCreate (textFlag : String) (hashtagsFlag : List String) (imageFlag : String)
    (form : Except String (String × String × String))
    (auth : Except String DIDResponse) (now : GoTime)
    (fs : String → Option (List Nat)) (upNet : UploadRequest → UploadNetOutcome)
    (dims : String → Option (Nat × Nat))
    (crNet : CreateRecordRequest → CreateNetOutcome) : RunResult :=
  if textFlag = "" ∧ imageFlag = "" then
    match form with
    | .error e =>
      { outputs := [Output.errUserInput e], calls := [], term := .exited 1 }
    | .ok (text, hashtagInput, imageFile) =>
      let hashtags :=
        if hashtagInput ≠ "" then
          (hashtagInput.splitOn ",").map (fun tag => tag.trim)
        else hashtagsFlag
      afterInput text hashtags imageFile auth now fs upNet dims crNet
  else
    afterInput textFlag hashtagsFlag imageFlag auth now fs upNet dims crNet

/-- Invocation outcome of the root command's flag/subcommand parsing. -/
inductive CliInvocation where
  /-- Parsing failed (`rootCmd.Execute()` returned an error). -/
  | parseFailure
  /-- The `posts create` subcommand was selected with these flag values. -/
  | create (textFlag : String) (hashtagsFlag : List String) (imageFlag : String)
  deriving Repr

/-- Function `Execute` from root.go: a parsing error causes `os.Exit(1)`;
otherwise the selected `posts create` command runs. -/
def Execute (inv : CliInvocation)
    (form : Except String (String × String × String))
    (auth : Except String DIDResponse) (now : GoTime)
    (fs : String → Option (List Nat)) (upNet : UploadRequest → UploadNetOutcome)
    (dims : String → Option (Nat × Nat))
    (crNet : CreateRecordRequest → CreateNetOutcome) : RunResult :=
  match inv with
  | .parseFailure => { outputs := [], calls := [], term := .exited 1 }
  | .create textFlag hashtagsFlag imageFlag =>
    runCreate textFlag hashtagsFlag imageFlag form auth now fs upNet dims crNet

/-! ### Concrete fixtures for the closed evaluation theorems -/

/-- Concrete token used by the closed evaluation theorems. -/
def tok0 : DIDResponse := { did := "did:plc:abc", accessJwt := "jwt0" }

/-- A wall-clock instant whose fractional second keeps `getCurrentTime` well
behaved (123 milliseconds exactly). -/
def goodTime : GoTime := ⟨2025, 1, 2, 3, 4, 5, 123000000⟩

/-- A wall-clock instant falling on a whole second (`nanos = 0`). -/
def wholeSecond : GoTime := ⟨2025, 1, 1, 0, 0, 0, 0⟩

/-- File system holding the single three-byte file `a.png`. -/
def fsSmall : String → Option (List Nat) := fun path =>
  if path = "a.png" then some [1, 2, 3] else none

/-- Empty file system. -/
def fsEmpty : String → Option (List Nat) := fun _ => none

/-- A decodable blob-upload response body with reference link `bafy1`. -/
def blobOk : UploadBlobResponse :=
  { blob := { typeTag := "blob", ref := { link := "bafy1" },
              mimeType := "image/png", size := 3 } }

/-- Upload oracle answering 200 with the decodable blob `blobOk`. -/
def upNetOk : UploadRequest → UploadNetOutcome := fun _ =>
  .response 200 "" none (some blobOk)

/-- Record-creation oracle answering 200 with an undecodable body. -/
def crNet200Undecodable : CreateRecordRequest → CreateNetOutcome := fun _ =>
  .response 200 none none

/-- Record-creation oracle answering 500 with an undecodable body. -/
def crNet500 : CreateRecordRequest → CreateNetOutcome := fun _ =>
  .response 500 none none

/-- Dimension oracle for which `image.DecodeConfig` always fails. -/
def dimsFail : String → Option (Nat × Nat) := fun _ => none

/-- Interactive-form oracle returning empty text, empty hashtag input and no
image. -/
def formEmpty : Except String (String × String × String) :=
  .ok ("", "", "")

/-- Upload oracle for runs that never attach an image (it is never asked). -/
def upNetIdle : UploadRequest → UploadNetOutcome := fun _ =>
  .response 200 "" none none

/-- Upload oracle answering 200 with a body that fails to decode. -/
def upNetUndecodable : UploadRequest → UploadNetOutcome := fun _ =>
  .response 200 "garbage" none none

/-- Upload oracle answering 200 with a decodable body whose reference link
is empty. -/
def upNetEmptyLink : UploadRequest → UploadNetOutcome := fun _ =>
  .response 200 "nolink" none
    (some { blob := { typeTag := "blob", ref := { link := "" },
                      mimeType := "image/png", size := 3 } })

/-- File system holding the single oversized file `big.png`
(1,000,001 bytes). -/
def bigFs : String → Option (List Nat) := fun path =>
  if path = "big.png" then some (List.replicate 1000001 0) else none

/-- Specification-side reading of claim C2: the hashtag suffix appends, for
each hashtag in list order, a space, a hash sign and the hashtag. -/
def hashtagSuffix : List String → String
  | [] => ""
  | tag :: rest => " #" ++ tag ++ hashtagSuffix rest

/-! ### Helper lemmas about `uploadImage` -/

/-- A file that exists and is within the size limit always makes `uploadImage`
construct and send exactly the one request built by `uploadRequestFor`,
whatever the file's extension and whatever the network answers. -/
lemma uploadImage_accepted_calls (token : DIDResponse) (imagePath : String)
    (fs : String → Option (List Nat)) (net : UploadRequest → UploadNetOutcome)
    (imgData : List Nat) (hfs : fs imagePath = some imgData)
    (hsize : ¬ imgData.length > 1000000) :
    (uploadImage token imagePath fs net).1 =
      [uploadRequestFor token imagePath imgData] := by
  simp only [uploadImage, hfs]
  rw [if_neg hsize]
  split
  · rfl
  · rfl
  · split
    · split <;> rfl
    · split
      · rfl
      · split <;> rfl

/-- Whenever `uploadImage` returns a blob response, its reference link is
non-empty: every other exit of the function is an error. -/
lemma uploadImage_ok_link (token : DIDResponse) (imagePath : String)
    (fs : String → Option (List Nat)) (net : UploadRequest → UploadNetOutcome)
    (reqs : List UploadRequest) (resp : UploadBlobResponse)
    (h : uploadImage token imagePath fs net = (reqs, Except.ok resp)) :
    resp.blob.ref.link ≠ "" := by
  simp only [uploadImage] at h
  split at h
  · simp at h
  · split at h
    · simp at h
    · split at h
      · simp at h
      · simp at h
      · split at h
        · split at h <;> simp at h
        · split at h
          · simp at h
          · split at h
            · simp at h
            · simp only [Prod.mk.injEq, Except.ok.injEq] at h
              obtain ⟨-, h2⟩ := h
              subst h2
              assumption

/-- A 200 upload response whose body fails to unmarshal into
`UploadBlobResponse` makes `uploadImage` return the decode error. -/
lemma uploadImage_decodeFailure (token : DIDResponse) (imagePath : String)
    (fs : String → Option (List Nat)) (net : UploadRequest → UploadNetOutcome)
    (imgData : List Nat) (bodyText : String) (errMessage : Option String)
    (hfs : fs imagePath = some imgData) (hsize : ¬ imgData.length > 1000000)
    (hnet : net (uploadRequestFor token imagePath imgData) =
      UploadNetOutcome.response 200 bodyText errMessage none) :
    uploadImage token imagePath fs net =
      ([uploadRequestFor token imagePath imgData],
       Except.error ("failed to decode response - body: " ++ bodyText)) := by
  simp only [uploadImage, hfs]
  rw [if_neg hsize, hnet]
  simp

/-- Unfolding of `sendCreateRecord` when the createRecord response carries a
non-success status. -/
lemma sendCreateRecord_badStatus (req : CreateRecordRequest)
    (crNet : CreateRecordRequest → CreateNetOutcome) (calls0 : List NetCall)
    (outs0 : List Output) (status : Nat) (errDecode : Option String)
    (postDecode : Option PostCreateResponse)
    (heq : crNet req = CreateNetOutcome.response status errDecode postDecode)
    (hst : status ≠ 200) :
    sendCreateRecord req crNet calls0 outs0 =
      (calls0 ++ [NetCall.createRecord req],
       outs0 ++ (match errDecode with
                 | some body => [Output.apiErrorResponse body]
                 | none => []),
       Except.error ("unexpected status code: " ++ toString status)) := by
  simp only [sendCreateRecord, heq]
  simp [hst]
  cases errDecode <;> rfl

/-- Unfolding of `sendCreateRecord` when the createRecord response has
status 200: the result is success whether or not the body decodes. -/
lemma sendCreateRecord_status200 (req : CreateRecordRequest)
    (crNet : CreateRecordRequest → CreateNetOutcome) (calls0 : List NetCall)
    (outs0 : List Output) (errDecode : Option String)
    (postDecode : Option PostCreateResponse)
    (heq : crNet req = CreateNetOutcome.response 200 errDecode postDecode) :
    sendCreateRecord req crNet calls0 outs0 =
      (calls0 ++ [NetCall.createRecord req],
       outs0 ++ (match postDecode with
                 | some post => [Output.postCreatedLog post.uri post.cid]
                 | none => []),
       Except.ok ()) := by
  simp only [sendCreateRecord, heq]
  simp
  cases postDecode <;> rfl

/-! ### Helper lemmas about `CreatePost` and the command layer -/

/-- Unfolding of `CreatePost` when the timestamp succeeds, an image is
attached and its upload succeeds. -/
lemma CreatePost_imageOk (now : GoTime) (token : DIDResponse)
    (content imagePath : String) (fs : String → Option (List Nat))
    (upNet : UploadRequest → UploadNetOutcome) (dims : String → Option (Nat × Nat))
    (crNet : CreateRecordRequest → CreateNetOutcome) (createdAt : String)
    (ureqs : List UploadRequest) (blobResp : UploadBlobResponse)
    (hts : getCurrentTime now = some createdAt) (himg : imagePath ≠ "")
    (hup : uploadImage token imagePath fs upNet = (ureqs, Except.ok blobResp)) :
    CreatePost now token content imagePath fs upNet dims crNet =
      some (sendCreateRecord
        (mkCreateRecordRequest token content createdAt
          (some { alt := "Attached image", refLink := blobResp.blob.ref.link,
                  mimeType := blobResp.blob.mimeType, size := blobResp.blob.size,
                  aspect := match dims imagePath with
                            | none => none
                            | some (width, height) =>
                              if width > 0 ∧ height > 0 then some (width, height)
                              else none }))
        crNet (ureqs.map NetCall.uploadBlob)
        ([Output.uploadingImage imagePath] ++
          (match dims imagePath with
           | none => [Output.warnDimensions]
           | some _ => []))) := by
  simp only [CreatePost, hts]
  rw [if_pos himg, hup]

/-- Unfolding of `CreatePost` when the timestamp succeeds, an image is
attached and its upload fails: the upload error is wrapped and returned. -/
lemma CreatePost_uploadError (now : GoTime) (token : DIDResponse)
    (content imagePath : String) (fs : String → Option (List Nat))
    (upNet : UploadRequest → UploadNetOutcome) (dims : String → Option (Nat × Nat))
    (crNet : CreateRecordRequest → CreateNetOutcome) (createdAt : String)
    (ureqs : List UploadRequest) (e : String)
    (hts : getCurrentTime now = some createdAt) (himg : imagePath ≠ "")
    (hup : uploadImage token imagePath fs upNet = (ureqs, Except.error e)) :
    CreatePost now token content imagePath fs upNet dims crNet =
      some (ureqs.map NetCall.uploadBlob, [Output.uploadingImage imagePath],
            Except.error ("failed to upload image: " ++ e)) := by
  simp only [CreatePost, hts]
  rw [if_pos himg, hup]

/-- Unfolding of `CreatePost` without an image. -/
lemma CreatePost_noImage (now : GoTime) (token : DIDResponse) (content : String)
    (fs : String → Option (List Nat)) (upNet : UploadRequest → UploadNetOutcome)
    (dims : String → Option (Nat × Nat))
    (crNet : CreateRecordRequest → CreateNetOutcome) (createdAt : String)
    (hts : getCurrentTime now = some createdAt) :
    CreatePost now token content "" fs upNet dims crNet =
      some (sendCreateRecord (mkCreateRecordRequest token content createdAt none)
            crNet [] []) := by
  simp only [CreatePost, hts]
  rw [if_neg (by simp)]

/-- The run through the flag path when `bluesky.CreatePost` errors: the
error is logged, the short failure message is printed, and the run
terminates normally. -/
lemma runCreate_createError (textFlag : String) (hashtagsFlag : List String)
    (imageFlag : String) (form : Except String (String × String × String))
    (token : DIDResponse) (now : GoTime) (fs : String → Option (List Nat))
    (upNet : UploadRequest → UploadNetOutcome) (dims : String → Option (Nat × Nat))
    (crNet : CreateRecordRequest → CreateNetOutcome) (calls : List NetCall)
    (outs : List Output) (msg : String)
    (hni : ¬ (textFlag = "" ∧ imageFlag = ""))
    (hcp : CreatePost now token (composeContent textFlag hashtagsFlag) imageFlag
        fs upNet dims crNet = some (calls, outs, Except.error msg)) :
    runCreate textFlag hashtagsFlag imageFlag form (Except.ok token) now fs upNet
        dims crNet =
      { outputs := outs ++ [Output.errCreateLog msg, Output.errCreateMsg]
        calls := [NetCall.auth] ++ calls
        term := Termination.normal } := by
  unfold runCreate
  rw [if_neg hni]
  simp only [afterInput, GetToken, hcp]

/-- The run through the flag path when `bluesky.CreatePost` succeeds: the
success message is printed and the run terminates normally. -/
lemma runCreate_createOk (textFlag : String) (hashtagsFlag : List String)
    (imageFlag : String) (form : Except String (String × String × String))
    (token : DIDResponse) (now : GoTime) (fs : String → Option (List Nat))
    (upNet : UploadRequest → UploadNetOutcome) (dims : String → Option (Nat × Nat))
    (crNet : CreateRecordRequest → CreateNetOutcome) (calls : List NetCall)
    (outs : List Output)
    (hni : ¬ (textFlag = "" ∧ imageFlag = ""))
    (hcp : CreatePost now token (composeContent textFlag hashtagsFlag) imageFlag
        fs upNet dims crNet = some (calls, outs, Except.ok ())) :
    runCreate textFlag hashtagsFlag imageFlag form (Except.ok token) now fs upNet
        dims crNet =
      { outputs := outs ++ [Output.success]
        calls := [NetCall.auth] ++ calls
        term := Termination.normal } := by
  unfold runCreate
  rw [if_neg hni]
  simp only [afterInput, GetToken, hcp]

/-! ### Claim theorems -/

/-- C2: for every text and every hashtag list, the composed post content is
the text followed by, for each hashtag in list order, a space and a hash
sign and the hashtag; in particular text `Hello` with hashtags `a`, `b`
composes to `Hello #a #b`. -/
theorem c2_composedContent :
    (∀ (text : String) (hashtags : List String),
        composeContent text hashtags = text ++ hashtagSuffix hashtags) ∧
      composeContent "Hello" ["a", "b"] = "Hello #a #b" := by
  refine ⟨?_, by decide⟩
  intro text hashtags
  induction hashtags generalizing text with
  | nil => simp [composeContent, hashtagSuffix, String.append_empty]
  | cons tag rest ih =>
    show composeContent (text ++ " #" ++ tag) rest = text ++ hashtagSuffix (tag :: rest)
    rw [ih]
    simp [hashtagSuffix, String.append_assoc]

/-- C3: a file whose content is larger than 1,000,000 bytes makes
`uploadImage` return the oversize error (the message reports the byte
count), and no upload request is constructed or sent. -/
theorem c3_oversizeRejectedLocally (token : DIDResponse) (imagePath : String)
    (fs : String → Option (List Nat)) (net : UploadRequest → UploadNetOutcome)
    (imgData : List Nat) (hfs : fs imagePath = some imgData)
    (hsize : imgData.length > 1000000) :
    uploadImage token imagePath fs net =
      ([], Except.error ("image file size too large: " ++ toString imgData.length ++
                         " bytes (1,000,000 bytes maximum)")) := by
  simp only [uploadImage, hfs]
  rw [if_pos hsize]

/-- Witness for C3 at a concrete 1,000,001-byte file. -/
theorem c3_witness :
    uploadImage tok0 "big.png" bigFs upNetIdle =
      ([], Except.error
        "image file size too large: 1000001 bytes (1,000,000 bytes maximum)") := by
  have h := c3_oversizeRejectedLocally tok0 "big.png" bigFs upNetIdle
    (List.replicate 1000001 0) rfl (by simp only [List.length_replicate]; omega)
  rw [List.length_replicate] at h
  exact h

/-- C4: `getCurrentTime` does not return a valid ISO-8601 UTC millisecond
timestamp for every instant.  On a whole second the RFC3339Nano rendering is
20 bytes long, so the `[:23]` slice panics (modelled as `none`); at half a
second it is 22 bytes long and also panics; at exactly 10 milliseconds it is
23 bytes long and the returned string ends in a doubled `Z`, which is not
valid ISO-8601.  Only fractions keeping at least three significant digits
produce a valid millisecond timestamp, as the last conjunct shows. -/
theorem c4_timestampFailures :
    getCurrentTime wholeSecond = none ∧
      getCurrentTime ⟨2025, 1, 1, 12, 30, 45, 500000000⟩ = none ∧
      getCurrentTime ⟨2025, 1, 1, 12, 30, 45, 10000000⟩ =
        some "2025-01-01T12:30:45.01ZZ" ∧
      getCurrentTime ⟨2025, 1, 1, 12, 30, 45, 123456789⟩ =
        some "2025-01-01T12:30:45.123Z" := by
  set_option maxRecDepth 4000 in decide

/-- C5: the extension table maps jpg/jpeg, png, gif and webp (matched on the
lower-cased extension, hence case-insensitively) to their MIME types; the
resolved Content-Type is never empty; and every existing, size-accepted file
leads to the upload request being constructed and sent whatever its
extension is, so an unknown extension alone never makes `uploadImage`
return an error. -/
theorem c5_mimeTable :
    (∀ filename : String,
        goToLower (filepathExt filename) = ".jpg" ∨
          goToLower (filepathExt filename) = ".jpeg" →
        getMimeType filename = "image/jpeg") ∧
      (∀ filename : String, goToLower (filepathExt filename) = ".png" →
        getMimeType filename = "image/png") ∧
      (∀ filename : String, goToLower (filepathExt filename) = ".gif" →
        getMimeType filename = "image/gif") ∧
      (∀ filename : String, goToLower (filepathExt filename) = ".webp" →
        getMimeType filename = "image/webp") ∧
      (∀ filename : String, resolveMimeType filename ≠ "") ∧
      (∀ (token : DIDResponse) (imagePath : String) (fs : String → Option (List Nat))
          (net : UploadRequest → UploadNetOutcome) (imgData : List Nat),
        fs imagePath = some imgData → ¬ imgData.length > 1000000 →
        (uploadImage token imagePath fs net).1 =
          [uploadRequestFor token imagePath imgData]) := by
  refine ⟨?_, ?_, ?_, ?_, ?_, uploadImage_accepted_calls⟩
  · intro filename h
    rcases h with h | h <;> simp only [getMimeType] <;> rw [h] <;> decide
  · intro filename h
    simp only [getMimeType]
    rw [h]
    decide
  · intro filename h
    simp only [getMimeType]
    rw [h]
    decide
  · intro filename h
    simp only [getMimeType]
    rw [h]
    decide
  · intro filename
    show (if getMimeType filename = "" then "image/jpeg" else getMimeType filename) ≠ ""
    split
    · decide
    · assumption

/-- Witness for C5 at concrete mixed-case file names and a concrete
unknown-extension upload. -/
theorem c5_witness :
    getMimeType "photo.JPG" = "image/jpeg" ∧ getMimeType "shot.jpeg" = "image/jpeg" ∧
      getMimeType "pic.PnG" = "image/png" ∧ getMimeType "anim.GIF" = "image/gif" ∧
      getMimeType "img.WebP" = "image/webp" ∧ resolveMimeType "strange.bmp" ≠ "" ∧
      (uploadImage tok0 "strange.bmp"
          (fun path => if path = "strange.bmp" then some [9] else none)
          (fun _ => UploadNetOutcome.transportError "offline")).1 =
        [uploadRequestFor tok0 "strange.bmp" [9]] :=
  ⟨c5_mimeTable.1 "photo.JPG" (Or.inl (by decide)),
   c5_mimeTable.1 "shot.jpeg" (Or.inr (by decide)),
   c5_mimeTable.2.1 "pic.PnG" (by decide),
   c5_mimeTable.2.2.1 "anim.GIF" (by decide),
   c5_mimeTable.2.2.2.1 "img.WebP" (by decide),
   c5_mimeTable.2.2.2.2.1 "strange.bmp",
   c5_mimeTable.2.2.2.2.2 tok0 "strange.bmp"
     (fun path => if path = "strange.bmp" then some [9] else none)
     (fun _ => UploadNetOutcome.transportError "offline") [9] rfl (by decide)⟩

/-- C9: when `getMimeType` returns the empty string (extension outside the
table), the upload request `uploadImage` sends carries Content-Type exactly
`image/jpeg`. -/
theorem c9_unknownExtDefaultsJpeg (token : DIDResponse) (imagePath : String)
    (fs : String → Option (List Nat)) (net : UploadRequest → UploadNetOutcome)
    (imgData : List Nat) (hmime : getMimeType imagePath = "")
    (hfs : fs imagePath = some imgData) (hsize : ¬ imgData.length > 1000000) :
    (uploadImage token imagePath fs net).1 =
      [{ url := API_URL ++ "/com.atproto.repo.uploadBlob"
         contentType := "image/jpeg"
         authorization := "Bearer " ++ token.accessJwt
         body := imgData }] := by
  rw [uploadImage_accepted_calls token imagePath fs net imgData hfs hsize]
  simp [uploadRequestFor, resolveMimeType, hmime]

/-- Witness for C9 at the concrete unknown-extension file `photo.bmp`. -/
theorem c9_witness :
    (uploadImage tok0 "photo.bmp"
        (fun path => if path = "photo.bmp" then some [7] else none)
        (fun _ => UploadNetOutcome.transportError "offline")).1 =
      [{ url := API_URL ++ "/com.atproto.repo.uploadBlob"
         contentType := "image/jpeg"
         authorization := "Bearer " ++ tok0.accessJwt
         body := [7] }] :=
  c9_unknownExtDefaultsJpeg tok0 "photo.bmp"
    (fun path => if path = "photo.bmp" then some [7] else none)
    (fun _ => UploadNetOutcome.transportError "offline") [7]
    (by decide) rfl (by decide)

/-- C10: a 200 upload response whose decoded blob reference link is empty
makes `uploadImage` return the missing-link error instead of a blob
reference, and any blob response `uploadImage` does return carries a
non-empty reference link. -/
theorem c10_emptyLinkRejected (token : DIDResponse) (imagePath : String)
    (fs : String → Option (List Nat)) (net : UploadRequest → UploadNetOutcome)
    (imgData : List Nat) (bodyText : String) (errMessage : Option String)
    (blobResp : UploadBlobResponse)
    (hfs : fs imagePath = some imgData) (hsize : ¬ imgData.length > 1000000)
    (hnet : net (uploadRequestFor token imagePath imgData) =
      UploadNetOutcome.response 200 bodyText errMessage (some blobResp))
    (hlink : blobResp.blob.ref.link = "") :
    uploadImage token imagePath fs net =
      ([uploadRequestFor token imagePath imgData],
       Except.error ("invalid response: missing blob reference link - body: " ++
                     bodyText)) ∧
      (∀ (path2 : String) (fs2 : String → Option (List Nat))
          (net2 : UploadRequest → UploadNetOutcome) (reqs : List UploadRequest)
          (resp : UploadBlobResponse),
        uploadImage token path2 fs2 net2 = (reqs, Except.ok resp) →
        resp.blob.ref.link ≠ "") := by
  constructor
  · simp only [uploadImage, hfs]
    rw [if_neg hsize, hnet]
    simp [hlink]
  · intro path2 fs2 net2 reqs resp h
    exact uploadImage_ok_link token path2 fs2 net2 reqs resp h

/-- Witness for C10 at a concrete 200 response with an empty link. -/
theorem c10_witness :
    uploadImage tok0 "a.png" fsSmall upNetEmptyLink =
      ([uploadRequestFor tok0 "a.png" [1, 2, 3]],
       Except.error
        "invalid response: missing blob reference link - body: nolink") := by
  have h := (c10_emptyLinkRejected tok0 "a.png" fsSmall upNetEmptyLink [1, 2, 3]
    "nolink" none
    { blob := { typeTag := "blob", ref := { link := "" },
                mimeType := "image/png", size := 3 } }
    rfl (by decide) rfl rfl).1
  exact h

/-- C1: evaluation of the code at the failing input.  With both flags empty
and the interactive form submitted with empty text, empty hashtag input and
no image, the command does not refuse to post: it emits no missing-input
error, performs the authentication network call and then a record-creation
network call carrying empty content, and reports success.  (The refusal the
claim describes is required by the spec invariant and existed in an earlier
revision of the command; the current code lost it, a code bug.) -/
theorem c1_emptyInteractiveNotRefused :
    runCreate "" [] "" formEmpty (Except.ok tok0) goodTime fsEmpty upNetIdle
        dimsFail crNet200Undecodable =
      { outputs := [Output.success]
        calls := [NetCall.auth,
                  NetCall.createRecord
                    (mkCreateRecordRequest tok0 "" "2025-01-02T03:04:05.123Z" none)]
        term := Termination.normal } ∧
      Output.missingInputMsg ∉
        (runCreate "" [] "" formEmpty (Except.ok tok0) goodTime fsEmpty upNetIdle
          dimsFail crNet200Undecodable).outputs := by
  set_option maxRecDepth 4000 in decide

/-- C7: counterexample.  The record-creation call answers HTTP 200 with a
body that fails to decode, yet nothing is reported: the run's only output is
the unqualified success message, refuting the claim that every
response-decode failure is reported. -/
theorem c7_counterexample :
    runCreate "hi" [] "" formEmpty (Except.ok tok0) goodTime fsEmpty upNetIdle
        dimsFail crNet200Undecodable =
      { outputs := [Output.success]
        calls := [NetCall.auth,
                  NetCall.createRecord
                    (mkCreateRecordRequest tok0 "hi" "2025-01-02T03:04:05.123Z" none)]
        term := Termination.normal } := by
  set_option maxRecDepth 4000 in decide

/-- C7 (amended): a decode failure of the blob-upload response is an error
of `uploadImage` and the CLI reports it with a log line and the short
failure message; but when the record-creation call returns HTTP 200 and its
body fails to decode, nothing is reported and the run ends as an unqualified
success. -/
theorem c7_decodeFailureReporting :
    (∀ (textFlag : String) (hashtagsFlag : List String) (imagePath : String)
        (form : Except String (String × String × String)) (token : DIDResponse)
        (now : GoTime) (createdAt : String) (fs : String → Option (List Nat))
        (upNet : UploadRequest → UploadNetOutcome) (dims : String → Option (Nat × Nat))
        (crNet : CreateRecordRequest → CreateNetOutcome) (imgData : List Nat)
        (bodyText : String) (errMessage : Option String),
      getCurrentTime now = some createdAt → imagePath ≠ "" →
      fs imagePath = some imgData → ¬ imgData.length > 1000000 →
      upNet (uploadRequestFor token imagePath imgData) =
        UploadNetOutcome.response 200 bodyText errMessage none →
      runCreate textFlag hashtagsFlag imagePath form (Except.ok token) now fs upNet
          dims crNet =
        { outputs := [Output.uploadingImage imagePath,
                      Output.errCreateLog ("failed to upload image: " ++
                        ("failed to decode response - body: " ++ bodyText)),
                      Output.errCreateMsg]
          calls := [NetCall.auth,
                    NetCall.uploadBlob (uploadRequestFor token imagePath imgData)]
          term := Termination.normal }) ∧
      (∀ (textFlag : String) (hashtagsFlag : List String)
          (form : Except String (String × String × String)) (token : DIDResponse)
          (now : GoTime) (createdAt : String) (fs : String → Option (List Nat))
          (upNet : UploadRequest → UploadNetOutcome)
          (dims : String → Option (Nat × Nat))
          (crNet : CreateRecordRequest → CreateNetOutcome),
        getCurrentTime now = some createdAt → textFlag ≠ "" →
        (∀ req, ∃ errDecode,
            crNet req = CreateNetOutcome.response 200 errDecode none) →
        runCreate textFlag hashtagsFlag "" form (Except.ok token) now fs upNet
            dims crNet =
          { outputs := [Output.success]
            calls := [NetCall.auth,
                      NetCall.createRecord (mkCreateRecordRequest token
                        (composeContent textFlag hashtagsFlag) createdAt none)]
            term := Termination.normal }) := by
  constructor
  · intro textFlag hashtagsFlag imagePath form token now createdAt fs upNet dims
      crNet imgData bodyText errMessage hts himg hfs hsize hnet
    have hupe := uploadImage_decodeFailure token imagePath fs upNet imgData
      bodyText errMessage hfs hsize hnet
    have hcp := CreatePost_uploadError now token
      (composeContent textFlag hashtagsFlag) imagePath fs upNet dims crNet
      createdAt [uploadRequestFor token imagePath imgData]
      ("failed to decode response - body: " ++ bodyText) hts himg hupe
    have hrun := runCreate_createError textFlag hashtagsFlag imagePath form token
      now fs upNet dims crNet _ _ _ (fun hand => himg hand.2) hcp
    simpa using hrun
  · intro textFlag hashtagsFlag form token now createdAt fs upNet dims crNet
      hts htext hcr
    obtain ⟨errDecode, heq⟩ := hcr
      (mkCreateRecordRequest token (composeContent textFlag hashtagsFlag)
        createdAt none)
    have hcp := CreatePost_noImage now token
      (composeContent textFlag hashtagsFlag) fs upNet dims crNet createdAt hts
    rw [sendCreateRecord_status200 _ crNet [] [] errDecode none heq] at hcp
    have hrun := runCreate_createOk textFlag hashtagsFlag "" form token now fs
      upNet dims crNet _ _ (fun hand => htext hand.1) hcp
    simpa using hrun

/-- Witness for the amended C7 at concrete inputs: an undecodable blob
response is reported, an undecodable 200 record-creation response is not. -/
theorem c7_witness :
    runCreate "hi" [] "a.png" formEmpty (Except.ok tok0) goodTime fsSmall
        upNetUndecodable dimsFail crNet200Undecodable =
      { outputs := [Output.uploadingImage "a.png",
                    Output.errCreateLog ("failed to upload image: " ++
                      ("failed to decode response - body: " ++ "garbage")),
                    Output.errCreateMsg]
        calls := [NetCall.auth,
                  NetCall.uploadBlob (uploadRequestFor tok0 "a.png" [1, 2, 3])]
        term := Termination.normal } ∧
      runCreate "hey" [] "" formEmpty (Except.ok tok0) goodTime fsEmpty upNetIdle
          dimsFail crNet200Undecodable =
        { outputs := [Output.success]
          calls := [NetCall.auth,
                    NetCall.createRecord (mkCreateRecordRequest tok0
                      (composeContent "hey" []) "2025-01-02T03:04:05.123Z" none)]
          term := Termination.normal } :=
  ⟨c7_decodeFailureReporting.1 "hi" [] "a.png" formEmpty tok0 goodTime
      "2025-01-02T03:04:05.123Z" fsSmall upNetUndecodable dimsFail
      crNet200Undecodable [1, 2, 3] "garbage" none
      (by set_option maxRecDepth 4000 in decide) (by decide) rfl (by decide) rfl,
   c7_decodeFailureReporting.2 "hey" [] formEmpty tok0 goodTime
      "2025-01-02T03:04:05.123Z" fsEmpty upNetIdle dimsFail crNet200Undecodable
      (by set_option maxRecDepth 4000 in decide) (by decide)
      (fun _ => ⟨none, rfl⟩)⟩

/-- C8: evaluation of the exit behavior.  A command-parsing failure exits
with code 1; an interactive-input failure during prompting exits with code
1; an authentication failure and a post-creation failure are reported while
the run terminates normally (exit code zero).  But the claimed "exactly"
fails: with a non-empty text flag (no parsing failure, no prompting, no
interactive input at all) at an instant whose nanosecond count is zero, the
run crashes with the `getCurrentTime` slice panic, terminating the process
with a non-zero code. -/
theorem c8_exitBehavior :
    (Execute CliInvocation.parseFailure formEmpty (Except.ok tok0) goodTime
        fsEmpty upNetIdle dimsFail crNet200Undecodable).term =
      Termination.exited 1 ∧
      (runCreate "" [] "" (Except.error "interactive input failed")
          (Except.ok tok0) goodTime fsEmpty upNetIdle dimsFail
          crNet200Undecodable).term = Termination.exited 1 ∧
      ((runCreate "hi" [] "" formEmpty (Except.error "bad credentials") goodTime
          fsEmpty upNetIdle dimsFail crNet200Undecodable).term =
          Termination.normal ∧
        Output.errAuthMsg ∈
          (runCreate "hi" [] "" formEmpty (Except.error "bad credentials")
            goodTime fsEmpty upNetIdle dimsFail crNet200Undecodable).outputs) ∧
      ((runCreate "hi" [] "" formEmpty (Except.ok tok0) goodTime fsEmpty
          upNetIdle dimsFail crNet500).term = Termination.normal ∧
        Output.errCreateMsg ∈
          (runCreate "hi" [] "" formEmpty (Except.ok tok0) goodTime fsEmpty
            upNetIdle dimsFail crNet500).outputs) ∧
      (Execute (CliInvocation.create "hi" [] "") formEmpty (Except.ok tok0)
          wholeSecond fsEmpty upNetIdle dimsFail crNet200Undecodable).term =
        Termination.crashed := by
  set_option maxRecDepth 4000 in decide

/-- C6: in every run whose blob upload succeeds while the subsequent
record-creation request comes back with a non-success status, `CreatePost`
returns an error, and the CLI run prints the failure message and never the
success message. -/
theorem c6_uploadOkCreateFailReported
    (textFlag : String) (hashtagsFlag : List String) (imageFlag : String)
    (form : Except String (String × String × String)) (token : DIDResponse)
    (now : GoTime) (createdAt : String) (fs : String → Option (List Nat))
    (upNet : UploadRequest → UploadNetOutcome) (dims : String → Option (Nat × Nat))
    (crNet : CreateRecordRequest → CreateNetOutcome)
    (ureqs : List UploadRequest) (blobResp : UploadBlobResponse)
    (hts : getCurrentTime now = some createdAt)
    (himg : imageFlag ≠ "")
    (hup : uploadImage token imageFlag fs upNet = (ureqs, Except.ok blobResp))
    (hcr : ∀ req, ∃ status errDecode postDecode,
        crNet req = CreateNetOutcome.response status errDecode postDecode ∧
          status ≠ 200) :
    (∃ calls outs msg,
        CreatePost now token (composeContent textFlag hashtagsFlag) imageFlag fs
            upNet dims crNet = some (calls, outs, Except.error msg)) ∧
      Output.errCreateMsg ∈
        (runCreate textFlag hashtagsFlag imageFlag form (Except.ok token) now fs
          upNet dims crNet).outputs ∧
      Output.success ∉
        (runCreate textFlag hashtagsFlag imageFlag form (Except.ok token) now fs
          upNet dims crNet).outputs := by
  have hcp := CreatePost_imageOk now token (composeContent textFlag hashtagsFlag)
    imageFlag fs upNet dims crNet createdAt ureqs blobResp hts himg hup
  obtain ⟨status, errDecode, postDecode, heq, hst⟩ := hcr
    (mkCreateRecordRequest token (composeContent textFlag hashtagsFlag) createdAt
      (some { alt := "Attached image", refLink := blobResp.blob.ref.link,
              mimeType := blobResp.blob.mimeType, size := blobResp.blob.size,
              aspect := match dims imageFlag with
                        | none => none
                        | some (width, height) =>
                          if width > 0 ∧ height > 0 then some (width, height)
                          else none }))
  rw [sendCreateRecord_badStatus _ crNet _ _ status errDecode postDecode heq hst]
    at hcp
  have hrun := runCreate_createError textFlag hashtagsFlag imageFlag form token
    now fs upNet dims crNet _ _ _ (fun hand => himg hand.2) hcp
  refine ⟨⟨_, _, _, hcp⟩, ?_, ?_⟩
  · rw [hrun]
    simp
  · rw [hrun]
    simp only [RunResult.mk.injEq]
    intro hmem
    rcases List.mem_append.1 hmem with hmem | hmem
    · rcases List.mem_append.1 hmem with hmem | hmem
      · rcases List.mem_append.1 hmem with hmem | hmem
        · simp at hmem
        · revert hmem
          cases dims imageFlag <;> simp
      · revert hmem
        cases errDecode <;> simp
    · simp at hmem

/-- Witness for C6: a concrete successful upload followed by a 500 from the
record-creation endpoint. -/
theorem c6_witness :
    (∃ calls outs msg,
        CreatePost goodTime tok0 (composeContent "hi" []) "a.png" fsSmall upNetOk
            dimsFail crNet500 = some (calls, outs, Except.error msg)) ∧
      Output.errCreateMsg ∈
        (runCreate "hi" [] "a.png" formEmpty (Except.ok tok0) goodTime fsSmall
          upNetOk dimsFail crNet500).outputs ∧
      Output.success ∉
        (runCreate "hi" [] "a.png" formEmpty (Except.ok tok0) goodTime fsSmall
          upNetOk dimsFail crNet500).outputs :=
  c6_uploadOkCreateFailReported "hi" [] "a.png" formEmpty tok0 goodTime
    "2025-01-02T03:04:05.123Z" fsSmall upNetOk dimsFail crNet500
    [uploadRequestFor tok0 "a.png" [1, 2, 3]] blobOk
    (by set_option maxRecDepth 4000 in decide) (by decide) rfl
    (fun _ => ⟨500, none, none, rfl, by decide⟩)

end Yabc
